import Mathlib

/-
Verification of examples/agent/no_mic/main.py (Deepgram voice-agent demo).
The script's original logic is the 44-byte WAV header builder, a keep-alive
loop, an audio accumulator flushed on AgentAudioDone, chatlog appends, and
main's top-level error handling.  We embed each of those shallowly below.
-/

namespace DeepgramNoMic

/-- Python `v.to_bytes(len, 'little')` succeeds exactly when `0 ≤ v < 256^len`
(a negative int or one that does not fit raises OverflowError). -/
def fitsLE (v : Int) (len : Nat) : Prop :=
  0 ≤ v ∧ v < 256 ^ len

instance (v : Int) (len : Nat) : Decidable (fitsLE v len) := by
  unfold fitsLE; infer_instance

/-- Model of Python `int.to_bytes(len, 'little')`: the little-endian byte list
on success, `none` for OverflowError (negative value or value ≥ 256^len). -/
def toBytesLE (v : Int) (len : Nat) : Option (List Nat) :=
  if fitsLE v len then
    some ((List.range len).map fun i => v.toNat / 256 ^ i % 256)
  else
    none

/-- Byte `i` (little-endian) of a nonnegative integer. -/
def byteAt (v : Int) (i : Nat) : Nat :=
  v.toNat / 256 ^ i % 256

/-- Python slice assignment `l[start:start+repl.length] = repl` on a bytearray
(the replacement in the source always has exactly the slice's length). -/
def setSlice (l : List Nat) (start : Nat) (repl : List Nat) : List Nat :=
  l.take start ++ repl ++ l.drop (start + repl.length)

/-- Embedding of `create_wav_header(sample_rate=24000, bits_per_sample=16,
channels=1)` from main.py lines 184-207.  Python's defaults are applied at
the call site (`on_agent_audio_done` calls it with no arguments, i.e. with
24000, 16, 1).  Each `to_bytes` may raise OverflowError, modelled by the
Option bind; the byte literals are the ASCII codes of b'RIFF', b'WAVE',
b'fmt ' and b'data' and the fixed fields of the source. -/
def create_wav_header (sample_rate bits_per_sample channels : Int) :
    Option (List Nat) := do
  let byte_rate := sample_rate * channels * (Int.fdiv bits_per_sample 8)
  let block_align := channels * (Int.fdiv bits_per_sample 8)
  let header : List Nat := List.replicate 44 0
  let header := setSlice header 0 [82, 73, 70, 70]
  let header := setSlice header 4 [0, 0, 0, 0]
  let header := setSlice header 8 [87, 65, 86, 69]
  let header := setSlice header 12 [102, 109, 116, 32]
  let header := setSlice header 16 [16, 0, 0, 0]
  let header := setSlice header 20 [1, 0]
  let chB ← toBytesLE channels 2
  let header := setSlice header 22 chB
  let srB ← toBytesLE sample_rate 4
  let header := setSlice header 24 srB
  let brB ← toBytesLE byte_rate 4
  let header := setSlice header 28 brB
  let baB ← toBytesLE block_align 2
  let header := setSlice header 32 baB
  let bpsB ← toBytesLE bits_per_sample 2
  let header := setSlice header 34 bpsB
  let header := setSlice header 36 [100, 97, 116, 97]
  let header := setSlice header 40 [0, 0, 0, 0]
  return header

/-- The 44 bytes the builder produces when every field encoding succeeds,
written out as the concatenation of the header's fields. -/
def headerBytes (sample_rate bits_per_sample channels : Int) : List Nat :=
  let byte_rate := sample_rate * channels * (Int.fdiv bits_per_sample 8)
  let block_align := channels * (Int.fdiv bits_per_sample 8)
  [82, 73, 70, 70] ++ [0, 0, 0, 0] ++ [87, 65, 86, 69] ++
  [102, 109, 116, 32] ++ [16, 0, 0, 0] ++ [1, 0] ++
  [byteAt channels 0, byteAt channels 1] ++
  [byteAt sample_rate 0, byteAt sample_rate 1,
   byteAt sample_rate 2, byteAt sample_rate 3] ++
  [byteAt byte_rate 0, byteAt byte_rate 1,
   byteAt byte_rate 2, byteAt byte_rate 3] ++
  [byteAt block_align 0, byteAt block_align 1] ++
  [byteAt bits_per_sample 0, byteAt bits_per_sample 1] ++
  [100, 97, 116, 97] ++ [0, 0, 0, 0]

/-- All five `to_bytes` calls of the builder succeed: channels and
bits_per_sample fit 2 bytes, sample_rate and the computed byte rate fit
4 bytes, and the computed block align fits 2 bytes. -/
def validWavInputs (sample_rate bits_per_sample channels : Int) : Prop :=
  fitsLE channels 2 ∧ fitsLE sample_rate 4 ∧
  fitsLE (sample_rate * channels * (Int.fdiv bits_per_sample 8)) 4 ∧
  fitsLE (channels * (Int.fdiv bits_per_sample 8)) 2 ∧
  fitsLE bits_per_sample 2

instance (sr bps ch : Int) : Decidable (validWavInputs sr bps ch) := by
  unfold validWavInputs; infer_instance

/-- Little-endian decoding of a byte list back to the number it encodes. -/
def decodeLE (bs : List Nat) : Nat :=
  bs.foldr (fun b acc => b + 256 * acc) 0

/-- Header produced by `create_wav_header()` with no arguments, i.e. with the
Python defaults sample_rate=24000, bits_per_sample=16, channels=1. -/
def defaultWavHeader : List Nat := headerBytes 24000 16 1

/-- State shared by the event handlers of main.py (lines 77-78): the byte
accumulator `audio_buffer`, the `file_counter`, and the files written so far,
each recorded as (index of output-index.wav, file contents). -/
structure AgentState where
  audio_buffer : List Nat
  file_counter : Nat
  outputs : List (Nat × List Nat)

/-- Handler for AudioData (lines 80-83): extends the accumulator with the
received bytes; nothing else changes. -/
def on_audio_data (s : AgentState) (data : List Nat) : AgentState :=
  ⟨s.audio_buffer ++ data, s.file_counter, s.outputs⟩

/-- Handler for AgentAudioDone (lines 85-92): writes the header returned by
`create_wav_header()` (no arguments, so the Python defaults 24000, 16, 1)
followed by the whole accumulator to output-file_counter.wav, then resets the
accumulator and increments the counter. -/
def on_agent_audio_done (s : AgentState) : AgentState :=
  ⟨[], s.file_counter + 1,
   s.outputs ++
     [(s.file_counter, (create_wav_header 24000 16 1).getD [] ++ s.audio_buffer)]⟩

/-- Handler for ConversationText (lines 94-97): appends one line to
chatlog.txt, opened in append mode.  The line is json.dumps of the event's
field dict, abstracted here as the already-serialized string. -/
def on_conversation_text (log : List String) (conversation_json : String) :
    List String :=
  log ++ [conversation_json]

/-- Handler for Welcome (lines 99-102): appends its record to chatlog.txt. -/
def on_welcome (log : List String) (welcome : String) : List String :=
  log ++ ["Welcome message: " ++ welcome]

/-- Handler for SettingsApplied (lines 104-107). -/
def on_settings_applied (log : List String) (settings_applied : String) :
    List String :=
  log ++ ["Settings applied: " ++ settings_applied]

/-- Handler for UserStartedSpeaking (lines 109-112). -/
def on_user_started_speaking (log : List String) (user_started_speaking : String) :
    List String :=
  log ++ ["User Started Speaking: " ++ user_started_speaking]

/-- Handler for AgentThinking (lines 114-117). -/
def on_agent_thinking (log : List String) (agent_thinking : String) :
    List String :=
  log ++ ["Agent Thinking: " ++ agent_thinking]

/-- Handler for AgentStartedSpeaking (lines 119-122). -/
def on_agent_started_speaking (log : List String) (agent_started_speaking : String) :
    List String :=
  log ++ ["Agent Started Speaking: " ++ agent_started_speaking]

/-- Handler for Close (lines 124-127). -/
def on_close (log : List String) (close : String) : List String :=
  log ++ ["Connection closed: " ++ close]

/-- Handler for Error (lines 129-133): prints details and appends its record
to chatlog.txt. -/
def on_error (log : List String) (error : String) : List String :=
  log ++ ["Error: " ++ error]

/-- Handler for Unhandled (lines 135-138). -/
def on_unhandled (log : List String) (unhandled : String) : List String :=
  log ++ ["Unhandled event: " ++ unhandled]

/-- Observable actions of main: console prints and the session activity
(client construction, connection creation/start, audio sends, finish). -/
inductive Effect where
  | consolePrint (s : String)
  | constructClient
  | createConnection
  | startConnection
  | sendAudioChunk
  | finishConnection
deriving DecidableEq

/-- Every effect other than a console print touches the client, the
connection or the network. -/
def isSessionActivity : Effect → Bool
  | Effect.consolePrint _ => false
  | _ => true

/-- Lines 29-31 of main: os.getenv returns None when the variable is unset;
`if not api_key` treats both None and the empty string as missing and raises
ValueError with this message. -/
def getApiKey (env : Option String) : Except String String :=
  match env with
  | none => Except.error "DEEPGRAM_API_KEY environment variable is not set"
  | some k =>
      if k = "" then
        Except.error "DEEPGRAM_API_KEY environment variable is not set"
      else Except.ok k

/-- Body of main (lines 27-178): the credential check runs first and raises
before anything else happens; on success the prints and client construction
of lines 32-43 run, and everything after them (configuration, handlers,
connection start, streaming) is abstracted as `session`, a list of further
effects together with an optional uncaught exception. -/
def mainBody (env : Option String) (session : List Effect × Option String) :
    List Effect × Option String :=
  match getApiKey env with
  | Except.error e => ([], some e)
  | Except.ok k =>
      (Effect.consolePrint ("API Key found: " ++ k.take 5 ++ "...") ::
         Effect.constructClient :: Effect.createConnection ::
         Effect.consolePrint "Created WebSocket connection..." :: session.1,
       session.2)

/-- main wraps its whole body in try/except (lines 27, 180-181): a raised
error is printed as an effect, never propagated past main. -/
def mainModel (env : Option String) (session : List Effect × Option String) :
    List Effect :=
  match mainBody env session with
  | (effs, none) => effs
  | (effs, some e) => effs ++ [Effect.consolePrint ("Error: " ++ e)]

/-- Observable actions of the keep-alive thread. -/
inductive KAEffect where
  | sleep (seconds : Nat)
  | consolePrint (s : String)
  | sendKeepAlive
deriving DecidableEq

/-- One pass of the `while True` body of send_keep_alive (lines 67-70):
time.sleep(5), a print, then exactly one AgentKeepAlive message sent on the
connection, with no acknowledgment read back. -/
def keepAliveIteration : List KAEffect :=
  [KAEffect.sleep 5, KAEffect.consolePrint "Keep alive!", KAEffect.sendKeepAlive]

/-- Loop guard of `while True` (line 67): it never becomes false. -/
def keepAliveLoopGuard : Bool := true

/-- Effects emitted by the first n iterations of the keep-alive loop. -/
def keepAliveTrace : Nat → List KAEffect
  | 0 => []
  | n + 1 => keepAliveTrace n ++ keepAliveIteration

/-- One audio direction of the SettingsOptions payload. -/
structure AudioConfig where
  encoding : String
  sample_rate : Nat
  container : Option String

/-- Audio input configuration set in main (lines 48-49). -/
def sessionInputAudio : AudioConfig := ⟨"linear16", 24000, none⟩

/-- Audio output configuration set in main (lines 51-53). -/
def sessionOutputAudio : AudioConfig := ⟨"linear16", 16000, some "wav"⟩

set_option maxHeartbeats 2000000 in
lemma create_wav_header_some (sr bps ch : Int)
    (h1 : fitsLE ch 2) (h2 : fitsLE sr 4)
    (h3 : fitsLE (sr * ch * (Int.fdiv bps 8)) 4)
    (h4 : fitsLE (ch * (Int.fdiv bps 8)) 2) (h5 : fitsLE bps 2) :
    create_wav_header sr bps ch = some (headerBytes sr bps ch) := by
  simp only [create_wav_header, toBytesLE]
  rw [if_pos h1, if_pos h2, if_pos h3, if_pos h4, if_pos h5]
  rfl

lemma create_wav_header_none (sr bps ch : Int)
    (h : ¬ validWavInputs sr bps ch) :
    create_wav_header sr bps ch = none := by
  by_cases h1 : fitsLE ch 2 <;> by_cases h2 : fitsLE sr 4 <;>
    by_cases h3 : fitsLE (sr * ch * (Int.fdiv bps 8)) 4 <;>
    by_cases h4 : fitsLE (ch * (Int.fdiv bps 8)) 2 <;>
    by_cases h5 : fitsLE bps 2 <;>
    simp [validWavInputs, h1, h2, h3, h4, h5] at h ⊢ <;>
    simp [create_wav_header, toBytesLE, h1, h2, h3, h4, h5]

lemma create_wav_header_isSome_iff (sr bps ch : Int) :
    (create_wav_header sr bps ch).isSome ↔ validWavInputs sr bps ch := by
  constructor
  · intro hs
    by_contra hv
    rw [create_wav_header_none sr bps ch hv] at hs
    simp at hs
  · intro hv
    obtain ⟨h1, h2, h3, h4, h5⟩ := hv
    rw [create_wav_header_some sr bps ch h1 h2 h3 h4 h5]
    rfl

lemma create_wav_header_eq_headerBytes (sr bps ch : Int) (h : List Nat)
    (hh : create_wav_header sr bps ch = some h) :
    h = headerBytes sr bps ch ∧ validWavInputs sr bps ch := by
  have hv : validWavInputs sr bps ch := by
    rw [← create_wav_header_isSome_iff, hh]; rfl
  obtain ⟨h1, h2, h3, h4, h5⟩ := hv
  rw [create_wav_header_some sr bps ch h1 h2 h3 h4 h5] at hh
  exact ⟨(Option.some_injective _ hh).symm, h1, h2, h3, h4, h5⟩

lemma decodeLE_two (v : Int) (h0 : 0 ≤ v) (h1 : v < 256 ^ 2) :
    (decodeLE [byteAt v 0, byteAt v 1] : Int) = v := by
  have h1' : v < 65536 := by norm_num at h1; exact h1
  simp only [decodeLE, byteAt, List.foldr, pow_zero, pow_one, Nat.div_one]
  omega

lemma decodeLE_four (v : Int) (h0 : 0 ≤ v) (h1 : v < 256 ^ 4) :
    (decodeLE [byteAt v 0, byteAt v 1, byteAt v 2, byteAt v 3] : Int) = v := by
  have h1' : v < 4294967296 := by norm_num at h1; exact h1
  have e2 : (256 : Nat) ^ 2 = 65536 := by norm_num
  have e3 : (256 : Nat) ^ 3 = 16777216 := by norm_num
  simp only [decodeLE, byteAt, List.foldr, pow_zero, pow_one, e2, e3,
    Nat.div_one]
  omega

lemma create_wav_header_default :
    create_wav_header 24000 16 1 = some defaultWavHeader :=
  create_wav_header_some 24000 16 1 (by decide) (by decide) (by decide)
    (by decide) (by decide)

lemma keepAliveTrace_count (n : Nat) :
    (keepAliveTrace n).count KAEffect.sendKeepAlive = n := by
  induction n with
  | zero => rfl
  | succ k ih =>
      simp [keepAliveTrace, keepAliveIteration, List.count_append, ih]

lemma keepAliveTrace_mem (n : Nat) :
    ∀ e ∈ keepAliveTrace n, e = KAEffect.sleep 5 ∨
      e = KAEffect.consolePrint "Keep alive!" ∨ e = KAEffect.sendKeepAlive := by
  induction n with
  | zero => intro e he; cases he
  | succ k ih =>
      intro e he
      rw [keepAliveTrace, List.mem_append] at he
      rcases he with he | he
      · exact ih e he
      · simp [keepAliveIteration] at he
        rcases he with he | he | he <;> simp [he]

/-- C1: for every input triple on which create_wav_header produces a header,
that header is exactly 44 bytes, carries the ASCII tags RIFF (82,73,70,70) at
offsets 0-3, WAVE (87,65,86,69) at 8-11, fmt-space (102,109,116,32) at
12-15 and data (100,97,116,97) at 36-39, and its two size fields (offsets
4-7 and 40-43) are zero placeholders. -/
theorem wav_header_layout (sr bps ch : Int) (h : List Nat)
    (hh : create_wav_header sr bps ch = some h) :
    h.length = 44 ∧
    h.take 4 = [82, 73, 70, 70] ∧
    (h.drop 8).take 4 = [87, 65, 86, 69] ∧
    (h.drop 12).take 4 = [102, 109, 116, 32] ∧
    (h.drop 36).take 4 = [100, 97, 116, 97] ∧
    (h.drop 4).take 4 = [0, 0, 0, 0] ∧
    (h.drop 40).take 4 = [0, 0, 0, 0] := by
  obtain ⟨hb, -⟩ := create_wav_header_eq_headerBytes sr bps ch h hh
  subst hb
  exact ⟨rfl, rfl, rfl, rfl, rfl, rfl, rfl⟩

/-- Witness for C1 at the Python default inputs 24000, 16, 1. -/
theorem wav_header_layout_witness :
    defaultWavHeader.length = 44 ∧
    defaultWavHeader.take 4 = [82, 73, 70, 70] ∧
    (defaultWavHeader.drop 8).take 4 = [87, 65, 86, 69] ∧
    (defaultWavHeader.drop 12).take 4 = [102, 109, 116, 32] ∧
    (defaultWavHeader.drop 36).take 4 = [100, 97, 116, 97] ∧
    (defaultWavHeader.drop 4).take 4 = [0, 0, 0, 0] ∧
    (defaultWavHeader.drop 40).take 4 = [0, 0, 0, 0] :=
  wav_header_layout 24000 16 1 defaultWavHeader create_wav_header_default

/-- C2: whenever a header is produced, its byte-rate field (offsets 28-31)
decodes to sample_rate * channels * (bits_per_sample // 8) and its
block-align field (offsets 32-33) decodes to
channels * (bits_per_sample // 8). -/
theorem wav_header_rates (sr bps ch : Int) (h : List Nat)
    (hh : create_wav_header sr bps ch = some h) :
    (decodeLE ((h.drop 28).take 4) : Int) = sr * ch * Int.fdiv bps 8 ∧
    (decodeLE ((h.drop 32).take 2) : Int) = ch * Int.fdiv bps 8 := by
  obtain ⟨hb, hv⟩ := create_wav_header_eq_headerBytes sr bps ch h hh
  subst hb
  obtain ⟨-, -, h3, h4, -⟩ := hv
  constructor
  · have e : ((headerBytes sr bps ch).drop 28).take 4 =
        [byteAt (sr * ch * Int.fdiv bps 8) 0, byteAt (sr * ch * Int.fdiv bps 8) 1,
         byteAt (sr * ch * Int.fdiv bps 8) 2, byteAt (sr * ch * Int.fdiv bps 8) 3] := rfl
    rw [e]
    exact decodeLE_four _ h3.1 h3.2
  · have e : ((headerBytes sr bps ch).drop 32).take 2 =
        [byteAt (ch * Int.fdiv bps 8) 0, byteAt (ch * Int.fdiv bps 8) 1] := rfl
    rw [e]
    exact decodeLE_two _ h4.1 h4.2

/-- Witness for C2: at 24000, 16, 1 the byte rate is 48000 and the block
align is 2, as the claim's example states. -/
theorem wav_header_rates_witness :
    (decodeLE ((defaultWavHeader.drop 28).take 4) : Int) = 48000 ∧
    (decodeLE ((defaultWavHeader.drop 32).take 2) : Int) = 2 := by
  have h := wav_header_rates 24000 16 1 defaultWavHeader create_wav_header_default
  have e1 : (24000 * 1 * Int.fdiv 16 8 : Int) = 48000 := by decide
  have e2 : (1 * Int.fdiv 16 8 : Int) = 2 := by decide
  exact ⟨e1 ▸ h.1, e2 ▸ h.2⟩

/-- C3: whenever a header is produced, its fmt subchunk is the canonical
little-endian PCM one: subchunk size 16 at offsets 16-19, audio format 1
(PCM) at 20-21, and the channel count, sample rate and bits per sample
decode from their little-endian fields at offsets 22-23, 24-27 and 34-35. -/
theorem wav_header_fmt_chunk (sr bps ch : Int) (h : List Nat)
    (hh : create_wav_header sr bps ch = some h) :
    (h.drop 16).take 4 = [16, 0, 0, 0] ∧
    (h.drop 20).take 2 = [1, 0] ∧
    (decodeLE ((h.drop 22).take 2) : Int) = ch ∧
    (decodeLE ((h.drop 24).take 4) : Int) = sr ∧
    (decodeLE ((h.drop 34).take 2) : Int) = bps := by
  obtain ⟨hb, hv⟩ := create_wav_header_eq_headerBytes sr bps ch h hh
  subst hb
  obtain ⟨h1, h2, -, -, h5⟩ := hv
  refine ⟨rfl, rfl, ?_, ?_, ?_⟩
  · have e : ((headerBytes sr bps ch).drop 22).take 2 =
        [byteAt ch 0, byteAt ch 1] := rfl
    rw [e]
    exact decodeLE_two _ h1.1 h1.2
  · have e : ((headerBytes sr bps ch).drop 24).take 4 =
        [byteAt sr 0, byteAt sr 1, byteAt sr 2, byteAt sr 3] := rfl
    rw [e]
    exact decodeLE_four _ h2.1 h2.2
  · have e : ((headerBytes sr bps ch).drop 34).take 2 =
        [byteAt bps 0, byteAt bps 1] := rfl
    rw [e]
    exact decodeLE_two _ h5.1 h5.2

/-- Witness for C3 at the Python default inputs 24000, 16, 1. -/
theorem wav_header_fmt_chunk_witness :
    (defaultWavHeader.drop 16).take 4 = [16, 0, 0, 0] ∧
    (defaultWavHeader.drop 20).take 2 = [1, 0] ∧
    (decodeLE ((defaultWavHeader.drop 22).take 2) : Int) = 1 ∧
    (decodeLE ((defaultWavHeader.drop 24).take 4) : Int) = 24000 ∧
    (decodeLE ((defaultWavHeader.drop 34).take 2) : Int) = 16 :=
  wav_header_fmt_chunk 24000 16 1 defaultWavHeader create_wav_header_default

/-- C4: create_wav_header is a pure, deterministic function of exactly its
three inputs: equal inputs give byte-identical results. -/
theorem create_wav_header_deterministic (sr₁ bps₁ ch₁ sr₂ bps₂ ch₂ : Int)
    (hsr : sr₁ = sr₂) (hbps : bps₁ = bps₂) (hch : ch₁ = ch₂) :
    create_wav_header sr₁ bps₁ ch₁ = create_wav_header sr₂ bps₂ ch₂ := by
  rw [hsr, hbps, hch]

/-- Witness for C4 at the Python default inputs. -/
theorem create_wav_header_deterministic_witness :
    create_wav_header 24000 16 1 = create_wav_header 24000 16 1 :=
  create_wav_header_deterministic 24000 16 1 24000 16 1 rfl rfl rfl

/-- C5: the accumulator obeys reset-on-flush: AudioData only appends to the
accumulator and changes nothing else, while AgentAudioDone writes the
44-byte default header followed by the entire accumulator to the file
numbered file_counter, after which the accumulator is empty and the counter
has increased by exactly one. -/
theorem audio_accumulator_lifecycle (s : AgentState) (data : List Nat) :
    (on_audio_data s data).audio_buffer = s.audio_buffer ++ data ∧
    (on_audio_data s data).file_counter = s.file_counter ∧
    (on_audio_data s data).outputs = s.outputs ∧
    (on_agent_audio_done s).outputs =
      s.outputs ++ [(s.file_counter,
        (create_wav_header 24000 16 1).getD [] ++ s.audio_buffer)] ∧
    ((create_wav_header 24000 16 1).getD []).length = 44 ∧
    (on_agent_audio_done s).audio_buffer = [] ∧
    (on_agent_audio_done s).file_counter = s.file_counter + 1 := by
  refine ⟨rfl, rfl, rfl, rfl, ?_, rfl, rfl⟩
  rw [create_wav_header_default]
  rfl

/-- C6: with DEEPGRAM_API_KEY unset or empty, main raises before any session
activity: its whole trace is the single printed error from the top-level
except block, no client is constructed, no connection started and no audio
sent; and in general any error raised in the body surfaces as a printed
effect rather than propagating out of main. -/
theorem missing_key_aborts (env : Option String)
    (session : List Effect × Option String)
    (h : env = none ∨ env = some "") :
    mainModel env session =
      [Effect.consolePrint
        "Error: DEEPGRAM_API_KEY environment variable is not set"] ∧
    (∀ e ∈ mainModel env session, isSessionActivity e = false) ∧
    (∀ (env' : Option String) (session' : List Effect × Option String)
        (msg : String), (mainBody env' session').2 = some msg →
      mainModel env' session' =
        (mainBody env' session').1 ++ [Effect.consolePrint ("Error: " ++ msg)]) := by
  have hm : mainModel env session =
      [Effect.consolePrint
        "Error: DEEPGRAM_API_KEY environment variable is not set"] := by
    rcases h with h | h <;> subst h <;> rfl
  refine ⟨hm, ?_, ?_⟩
  · intro e he
    rw [hm] at he
    simp at he
    simp [he, isSessionActivity]
  · intro env' session' msg hmsg
    unfold mainModel
    rcases hb : mainBody env' session' with ⟨effs, err⟩
    rw [hb] at hmsg
    simp at hmsg
    simp [hmsg]

/-- Witness for C6 with the variable unset and an arbitrary session. -/
theorem missing_key_aborts_witness :
    mainModel none ([], none) =
      [Effect.consolePrint
        "Error: DEEPGRAM_API_KEY environment variable is not set"] ∧
    (∀ e ∈ mainModel none ([], none), isSessionActivity e = false) ∧
    (∀ (env' : Option String) (session' : List Effect × Option String)
        (msg : String), (mainBody env' session').2 = some msg →
      mainModel env' session' =
        (mainBody env' session').1 ++ [Effect.consolePrint ("Error: " ++ msg)]) :=
  missing_key_aborts none ([], none) (Or.inl rfl)

/-- C7: the keep-alive loop's guard is constantly true (it never exits on
its own); every iteration appends exactly sleep-5, the print, and one
keep-alive send; after n iterations exactly n keep-alive messages have been
sent; and the trace contains nothing else — no acknowledgment wait, no
retry, no backoff. -/
theorem keep_alive_loop (n : Nat) :
    keepAliveLoopGuard = true ∧
    keepAliveTrace (n + 1) = keepAliveTrace n ++
      [KAEffect.sleep 5, KAEffect.consolePrint "Keep alive!",
       KAEffect.sendKeepAlive] ∧
    (keepAliveTrace n).count KAEffect.sendKeepAlive = n ∧
    (∀ e ∈ keepAliveTrace n, e = KAEffect.sleep 5 ∨
      e = KAEffect.consolePrint "Keep alive!" ∨ e = KAEffect.sendKeepAlive) :=
  ⟨rfl, rfl, keepAliveTrace_count n, keepAliveTrace_mem n⟩

/-- C8: every chatlog-writing handler opens chatlog.txt in append mode and
adds exactly one record at the end: the previous log is a prefix of the new
log and nothing already written changes. -/
theorem chatlog_append_only (log : List String) (s : String) :
    on_conversation_text log s = log ++ [s] ∧
    log <+: on_conversation_text log s ∧
    on_welcome log s = log ++ ["Welcome message: " ++ s] ∧
    log <+: on_welcome log s ∧
    on_settings_applied log s = log ++ ["Settings applied: " ++ s] ∧
    log <+: on_settings_applied log s ∧
    on_user_started_speaking log s = log ++ ["User Started Speaking: " ++ s] ∧
    log <+: on_user_started_speaking log s ∧
    on_agent_thinking log s = log ++ ["Agent Thinking: " ++ s] ∧
    log <+: on_agent_thinking log s ∧
    on_agent_started_speaking log s = log ++ ["Agent Started Speaking: " ++ s] ∧
    log <+: on_agent_started_speaking log s ∧
    on_close log s = log ++ ["Connection closed: " ++ s] ∧
    log <+: on_close log s ∧
    on_error log s = log ++ ["Error: " ++ s] ∧
    log <+: on_error log s ∧
    on_unhandled log s = log ++ ["Unhandled event: " ++ s] ∧
    log <+: on_unhandled log s :=
  ⟨rfl, ⟨_, rfl⟩, rfl, ⟨_, rfl⟩, rfl, ⟨_, rfl⟩, rfl, ⟨_, rfl⟩, rfl, ⟨_, rfl⟩,
   rfl, ⟨_, rfl⟩, rfl, ⟨_, rfl⟩, rfl, ⟨_, rfl⟩, rfl, ⟨_, rfl⟩⟩

/-- C9: AgentAudioDone writes the no-argument (default-parameter) header, so
bytes 24-27 of every flushed file decode to 24000, even though the session's
configured audio output sample rate (line 52) is 16000. -/
theorem flushed_files_use_default_header (s : AgentState) :
    (on_agent_audio_done s).outputs =
      s.outputs ++ [(s.file_counter, defaultWavHeader ++ s.audio_buffer)] ∧
    create_wav_header 24000 16 1 = some defaultWavHeader ∧
    decodeLE ((defaultWavHeader.drop 24).take 4) = 24000 ∧
    sessionOutputAudio.sample_rate = 16000 := by
  refine ⟨?_, create_wav_header_default, rfl, rfl⟩
  show s.outputs ++ [(s.file_counter,
      (create_wav_header 24000 16 1).getD [] ++ s.audio_buffer)] = _
  rw [create_wav_header_default]
  rfl

/-- C10 counterexample: at sample_rate 0, bits_per_sample 16, channels
65535, every field the claim lists fits its width (channels and bits per
sample below 2^16, sample rate and byte rate below 2^32, all nonnegative),
yet create_wav_header produces no header — the block-align encoding
overflows its 2 bytes. -/
theorem wav_header_fits_insufficient :
    (0 : Int) ≤ 65535 ∧ (65535 : Int) < 2 ^ 16 ∧
    (0 : Int) ≤ 16 ∧ (16 : Int) < 2 ^ 16 ∧
    (0 : Int) ≤ 0 ∧ (0 : Int) < 2 ^ 32 ∧
    (0 : Int) ≤ 0 * 65535 * Int.fdiv 16 8 ∧
    (0 * 65535 * Int.fdiv 16 8 : Int) < 2 ^ 32 ∧
    create_wav_header 0 16 65535 = none := by
  refine ⟨by decide, by decide, by decide, by decide, by decide, by decide,
    by decide, by decide, ?_⟩
  have hno : ¬ validWavInputs 0 16 65535 := by decide
  exact create_wav_header_none 0 16 65535 hno

/-- C10 as amended: a header is produced exactly when channels,
bits_per_sample and the computed block align fit 2 bytes and sample_rate and
the computed byte rate fit 4 bytes (all nonnegative); outside that range an
encoding overflows and no header is produced. -/
theorem wav_header_total_iff (sr bps ch : Int) :
    (create_wav_header sr bps ch).isSome ↔
      (0 ≤ ch ∧ ch < 2 ^ 16) ∧ (0 ≤ sr ∧ sr < 2 ^ 32) ∧
      (0 ≤ sr * ch * Int.fdiv bps 8 ∧ sr * ch * Int.fdiv bps 8 < 2 ^ 32) ∧
      (0 ≤ ch * Int.fdiv bps 8 ∧ ch * Int.fdiv bps 8 < 2 ^ 16) ∧
      (0 ≤ bps ∧ bps < 2 ^ 16) := by
  rw [create_wav_header_isSome_iff]
  unfold validWavInputs fitsLE
  norm_num

end DeepgramNoMic
